import Mathlib

/-!
Verification of the `expression` package (src/expression/__init__.py),
a sandboxed expression evaluator built on the host's `ast` module.

The embedding mirrors the source:
* `Value` is the dynamic result domain (None, bool, int, float, str).
  Host floats are modelled as rationals; the claims at issue only involve
  values on which IEEE doubles are exact.
* `Expr`/`Stmt`/`Module` mirror the host `ast` nodes that the visitor class
  dispatches on.  Node kinds for which the source defines no `visit_...`
  method are modelled as dedicated constructors that the evaluator routes
  to `generic_visit`, exactly as `ast.NodeVisitor` does.
* `visit` is the `Expression_Parser` visitor: one match arm per
  `visit_...` method of the source, a catch-all arm for `generic_visit`.
* `parse` takes the tree produced by the host parser `ast.parse`
  (the host parser itself is outside this repository) together with the
  expression text, and performs the exception normalization of
  `Expression_Parser.parse`.
* Exceptions are explicit: `Exc.syn` is a raised SyntaxError
  (message, filename, lineno, col_offset, text) and `Exc.other` is any
  other exception, recorded as its class name, `args[0]` and the
  remaining positional args (only positions occur in this program).
-/

namespace Expression

/-- Dynamic values of the evaluator.  Python floats are modelled as `ℚ`. -/
inductive Value where
  | none
  | bool (b : Bool)
  | int (n : Int)
  | float (q : ℚ)
  | str (s : String)
deriving Repr, DecidableEq, BEq

/-- Python exception as observed by the `try ... except` in `parse`:
either a `SyntaxError` carrying `(msg, (filename, lineno, col_offset, text))`,
or any other exception recorded as its class name, its message `args[0]`
and its remaining positional `args[1:]` (positions, in this program). -/
inductive Exc where
  | syn (msg filename : String) (lineno col : Nat) (text : String)
  | other (kind msg : String) (extra : List Nat)
deriving Repr, DecidableEq

/-- The `SyntaxError` that escapes `parse`: message plus the detail tuple
`(filename, lineno, offset, text)`. -/
structure SyntaxErrorData where
  msg : String
  filename : String
  lineno : Nat
  col : Nat
  text : String
deriving Repr, DecidableEq

/-- Keys of `_boolean_ops` (`ast.And`, `ast.Or`). -/
inductive BoolOpKind where
  | and
  | or
deriving Repr, DecidableEq

/-- Keys of `_binary_ops` (`ast.Add` ... `ast.FloorDiv`). -/
inductive BinOpKind where
  | add
  | sub
  | mult
  | div
  | mod
  | pow
  | lshift
  | rshift
  | bitOr
  | bitXor
  | bitAnd
  | floorDiv
deriving Repr, DecidableEq

/-- Keys of `_unary_ops` (`ast.Invert`, `ast.Not`, `ast.UAdd`, `ast.USub`). -/
inductive UnaryOpKind where
  | invert
  | not
  | uadd
  | usub
deriving Repr, DecidableEq

/-- Keys of `_compare_ops` (`ast.Eq` ... `ast.NotIn`). -/
inductive CmpOpKind where
  | eq
  | notEq
  | lt
  | ltE
  | gt
  | gtE
  | is
  | isNot
  | in_
  | notIn
deriving Repr, DecidableEq

/-- Expression nodes of the host `ast` that this program can receive.
The first nine constructors are the kinds with a `visit_...` method in the
source; `str_`, `lambda_`, `attribute_` and `subscript_` are node kinds
without one, which therefore fall to `generic_visit` (string literals are
`ast.Str` nodes and the source defines no `visit_Str`).  Keyword arguments
of a call are `(arg, value)` pairs, as consumed by `visit_keyword`.
Each node carries its `lineno` and `col_offset`. -/
inductive Expr where
  | boolOp (op : BoolOpKind) (values : List Expr) (lineno col : Nat)
  | binOp (left : Expr) (op : BinOpKind) (right : Expr) (lineno col : Nat)
  | unaryOp (op : UnaryOpKind) (operand : Expr) (lineno col : Nat)
  | ifExp (test body orelse : Expr) (lineno col : Nat)
  | compare (left : Expr) (ops : List CmpOpKind) (comparators : List Expr) (lineno col : Nat)
  | call (func : String) (args : List Expr) (keywords : List (String × Expr))
      (starargs kwargs : Option Expr) (lineno col : Nat)
  | num (n : Value) (lineno col : Nat)
  | name (id : String) (lineno col : Nat)
  | nameConstant (value : Value) (lineno col : Nat)
  | str_ (s : String) (lineno col : Nat)
  | lambda_ (lineno col : Nat)
  | attribute_ (lineno col : Nat)
  | subscript_ (lineno col : Nat)
deriving Repr

/-- Statement nodes: an expression statement (`ast.Expr`, which has a
`visit_Expr` method), and statement kinds without a visitor, which fall to
`generic_visit` (`ast.While`, `ast.Assign`, `ast.Import` as exemplars). -/
inductive Stmt where
  | expr (value : Expr) (lineno col : Nat)
  | while_ (lineno col : Nat)
  | assign (lineno col : Nat)
  | import_ (lineno col : Nat)
deriving Repr

/-- The root `ast.Module` node: a list of statements. -/
structure Module where
  body : List Stmt
deriving Repr

/-- Line number of an expression node (`node.lineno`). -/
def Expr.lineno : Expr → Nat
  | .boolOp _ _ l _ => l
  | .binOp _ _ _ l _ => l
  | .unaryOp _ _ l _ => l
  | .ifExp _ _ _ l _ => l
  | .compare _ _ _ l _ => l
  | .call _ _ _ _ _ l _ => l
  | .num _ l _ => l
  | .name _ l _ => l
  | .nameConstant _ l _ => l
  | .str_ _ l _ => l
  | .lambda_ l _ => l
  | .attribute_ l _ => l
  | .subscript_ l _ => l

/-- Column offset of an expression node (`node.col_offset`). -/
def Expr.col : Expr → Nat
  | .boolOp _ _ _ c => c
  | .binOp _ _ _ _ c => c
  | .unaryOp _ _ _ c => c
  | .ifExp _ _ _ _ c => c
  | .compare _ _ _ _ c => c
  | .call _ _ _ _ _ _ c => c
  | .num _ _ c => c
  | .name _ _ c => c
  | .nameConstant _ _ c => c
  | .str_ _ _ c => c
  | .lambda_ _ c => c
  | .attribute_ _ c => c
  | .subscript_ _ c => c

/-- Rendering of a node by the host `ast.dump`, abbreviated to the node's
class name (the full recursive field dump of the host is irrelevant to the
program's behaviour; only `Str` keeps its field, for concreteness). -/
def Expr.dump : Expr → String
  | .boolOp .. => "BoolOp(...)"
  | .binOp .. => "BinOp(...)"
  | .unaryOp .. => "UnaryOp(...)"
  | .ifExp .. => "IfExp(...)"
  | .compare .. => "Compare(...)"
  | .call .. => "Call(...)"
  | .num .. => "Num(...)"
  | .name .. => "Name(...)"
  | .nameConstant .. => "NameConstant(...)"
  | .str_ s _ _ => "Str(s=\x27" ++ s ++ "\x27)"
  | .lambda_ .. => "Lambda(...)"
  | .attribute_ .. => "Attribute(...)"
  | .subscript_ .. => "Subscript(...)"

/-- Line number of a statement node (`node.lineno`). -/
def Stmt.lineno : Stmt → Nat
  | .expr _ l _ => l
  | .while_ l _ => l
  | .assign l _ => l
  | .import_ l _ => l

/-- Column offset of a statement node (`node.col_offset`). -/
def Stmt.col : Stmt → Nat
  | .expr _ _ c => c
  | .while_ _ c => c
  | .assign _ c => c
  | .import_ _ c => c

/-- Rendering of a statement node by the host `ast.dump`, abbreviated to
the node's class name. -/
def Stmt.dump : Stmt → String
  | .expr .. => "Expr(...)"
  | .while_ .. => "While(...)"
  | .assign .. => "Assign(...)"
  | .import_ .. => "Import(...)"

/-- Host truthiness (`bool(v)`): None and zero and the empty string are
falsy, everything else in this domain is truthy. -/
def truthy : Value → Bool
  | .none => false
  | .bool b => b
  | .int n => n != 0
  | .float q => q != 0
  | .str s => s != ""

/-- Numeric view of a value for the host's numeric tower:
bools count as 0/1, ints and floats embed into `ℚ`. -/
def ratValue? : Value → Option ℚ
  | .bool b => some (((if b then 1 else 0 : Int)) : ℚ)
  | .int n => some ((n : Int) : ℚ)
  | .float q => some q
  | _ => none

/-- Integer view of a value: bools count as 0/1; floats are not integers. -/
def intValue? : Value → Option Int
  | .bool b => some (if b then 1 else 0)
  | .int n => some n
  | _ => none

/-- Host type name of a value (used in host error messages). -/
def typeName : Value → String
  | .none => "NoneType"
  | .bool _ => "bool"
  | .int _ => "int"
  | .float _ => "float"
  | .str _ => "str"

/-- TypeError raised by a host binary operator on unsupported operands. -/
def binTypeError (opName : String) (a b : Value) : Exc :=
  .other "TypeError"
    ("unsupported operand type(s) for " ++ opName ++ ": " ++ typeName a ++ " and " ++ typeName b) []

/-- ZeroDivisionError of the host. -/
def zeroDivisionError (msg : String) : Exc :=
  .other "ZeroDivisionError" msg []

/-- Shared shape of the host's promoting arithmetic operators
(`+ - *`): int ⊗ int → int (bools count as ints), otherwise promote both
operands to float. -/
def numericBinOp (opName : String) (fi : Int → Int → Int) (fq : ℚ → ℚ → ℚ)
    (a b : Value) : Except Exc Value :=
  match intValue? a, intValue? b with
  | some m, some n => .ok (.int (fi m n))
  | _, _ =>
    match ratValue? a, ratValue? b with
    | some x, some y => .ok (.float (fq x y))
    | _, _ => .error (binTypeError opName a b)

/-- Shared shape of the host's integer-only bitwise operators
(`<< >> | ^ &`); bool ⊗ bool for `| ^ &` returns bool and is handled
before this helper is reached. -/
def intBinOp (opName : String) (fi : Int → Int → Except Exc Int)
    (a b : Value) : Except Exc Value :=
  match intValue? a, intValue? b with
  | some m, some n =>
    match fi m n with
    | .ok r => .ok (.int r)
    | .error e => .error e
  | _, _ => .error (binTypeError opName a b)

/-- The `_boolean_ops` table: `lambda left, right: left and right` and
`lambda left, right: left or right`.  The short-circuit of the host lambda
is at the value level only: both arguments are already evaluated when the
lambda is applied. -/
def boolean_ops : BoolOpKind → Value → Value → Value
  | .and, l, r => if truthy l then r else l
  | .or, l, r => if truthy l then l else r

/-- The `_binary_ops` table: each entry applies the corresponding host
operator to the two evaluated operands.  `from __future__ import division`
is in force, so `/` is true division.  String repetition by an integer
(`*`), string formatting (`%`) and float powers with a non-integer
exponent are outside this model; no claim concerns them. -/
def binary_ops : BinOpKind → Value → Value → Except Exc Value
  | .add, .str s, .str t => .ok (.str (s ++ t))
  | .add, a, b => numericBinOp "+" (fun m n => m + n) (fun x y => x + y) a b
  | .sub, a, b => numericBinOp "-" (fun m n => m - n) (fun x y => x - y) a b
  | .mult, a, b => numericBinOp "*" (fun m n => m * n) (fun x y => x * y) a b
  | .div, a, b =>
    match ratValue? a, ratValue? b with
    | some x, some y =>
      if y == 0 then .error (zeroDivisionError "division by zero")
      else .ok (.float (x / y))
    | _, _ => .error (binTypeError "/" a b)
  | .mod, a, b =>
    match intValue? a, intValue? b with
    | some m, some n =>
      if n == 0 then .error (zeroDivisionError "integer division or modulo by zero")
      else .ok (.int (Int.fmod m n))
    | _, _ =>
      match ratValue? a, ratValue? b with
      | some x, some y =>
        if y == 0 then .error (zeroDivisionError "float modulo")
        else .ok (.float (x - y * ((⌊x / y⌋ : Int) : ℚ)))
      | _, _ => .error (binTypeError "%" a b)
  | .pow, a, b =>
    match intValue? a, intValue? b with
    | some m, some n =>
      if 0 ≤ n then .ok (.int (m ^ n.toNat))
      else if m == 0 then
        .error (zeroDivisionError "0.0 cannot be raised to a negative power")
      else .ok (.float (((m : Int) : ℚ) ^ n))
    | _, _ =>
      match ratValue? a, ratValue? b with
      | some x, some y =>
        if y.den == 1 then
          if x == 0 && y < 0 then
            .error (zeroDivisionError "0.0 cannot be raised to a negative power")
          else .ok (.float (x ^ y.num))
        else .error (.other "ValueError" "float power with non-integer exponent is outside the rational float model" [])
      | _, _ => .error (binTypeError "** or pow()" a b)
  | .lshift, a, b =>
    intBinOp "<<"
      (fun m n =>
        if n < 0 then .error (.other "ValueError" "negative shift count" [])
        else .ok (m * (2 ^ n.toNat))) a b
  | .rshift, a, b =>
    intBinOp ">>"
      (fun m n =>
        if n < 0 then .error (.other "ValueError" "negative shift count" [])
        else .ok (Int.fdiv m (2 ^ n.toNat))) a b
  | .bitOr, .bool x, .bool y => .ok (.bool (x || y))
  | .bitOr, a, b => intBinOp "|" (fun m n => .ok (Int.lor m n)) a b
  | .bitXor, .bool x, .bool y => .ok (.bool (xor x y))
  | .bitXor, a, b => intBinOp "^" (fun m n => .ok (Int.xor m n)) a b
  | .bitAnd, .bool x, .bool y => .ok (.bool (x && y))
  | .bitAnd, a, b => intBinOp "&" (fun m n => .ok (Int.land m n)) a b
  | .floorDiv, a, b =>
    match intValue? a, intValue? b with
    | some m, some n =>
      if n == 0 then .error (zeroDivisionError "integer division or modulo by zero")
      else .ok (.int (Int.fdiv m n))
    | _, _ =>
      match ratValue? a, ratValue? b with
      | some x, some y =>
        if y == 0 then .error (zeroDivisionError "float divmod()")
        else .ok (.float ((⌊x / y⌋ : Int) : ℚ))
      | _, _ => .error (binTypeError "//" a b)

/-- The `_unary_ops` table: `~`, `not`, unary `+`, unary `-` of the host.
`~` and signs on bools promote to int, as in the host. -/
def unary_ops : UnaryOpKind → Value → Except Exc Value
  | .invert, v =>
    match intValue? v with
    | some n => .ok (.int (-n - 1))
    | _ => .error (.other "TypeError" ("bad operand type for unary ~: " ++ typeName v) [])
  | .not, v => .ok (.bool (!truthy v))
  | .uadd, v =>
    match intValue? v with
    | some n => .ok (.int n)
    | _ =>
      match v with
      | .float q => .ok (.float q)
      | _ => .error (.other "TypeError" ("bad operand type for unary +: " ++ typeName v) [])
  | .usub, v =>
    match intValue? v with
    | some n => .ok (.int (-n))
    | _ =>
      match v with
      | .float q => .ok (.float (-q))
      | _ => .error (.other "TypeError" ("bad operand type for unary -: " ++ typeName v) [])

/-- Host `==` on this value domain: numeric values (bool/int/float)
compare by numeric value, strings by content, None only equals None;
values of unrelated kinds are unequal. -/
def pyEq (a b : Value) : Bool :=
  match a, b with
  | .none, .none => true
  | .str s, .str t => s == t
  | _, _ =>
    match ratValue? a, ratValue? b with
    | some x, some y => x == y
    | _, _ => false

/-- Host identity (`is`) modelled as structural equality: every value in
this domain is an immutable scalar, and the program only applies `is` to
such values. -/
def pyIs (a b : Value) : Bool := a == b

/-- Host ordering used by `< <= > >=`: numeric values compare by value,
strings lexicographically; other combinations have no order (the host
raises TypeError). -/
def cmpOrd? (a b : Value) : Option Ordering :=
  match ratValue? a, ratValue? b with
  | some x, some y => some (if x < y then .lt else if y < x then .gt else .eq)
  | _, _ =>
    match a, b with
    | .str s, .str t => some (compare s t)
    | _, _ => Option.none

/-- List-level substring test backing the host's `in` on strings. -/
def charSub : List Char → List Char → Bool
  | needle, [] => needle.isEmpty
  | needle, c :: rest => needle.isPrefixOf (c :: rest) || charSub needle rest

/-- Host membership (`in`): substring test on strings; this domain has no
other containers, so anything else raises TypeError as the host does for
non-iterables. -/
def pyIn (a b : Value) : Except Exc Bool :=
  match a, b with
  | .str s, .str t => .ok (charSub s.toList t.toList)
  | _, .str _ => .error (.other "TypeError" "in <string> requires string as left operand" [])
  | _, _ => .error (.other "TypeError" ("argument of type " ++ typeName b ++ " is not iterable") [])

/-- Evaluation of an order comparison, raising the host's TypeError on
unordered combinations. -/
def ordCompare (a b : Value) (f : Ordering → Bool) : Except Exc Value :=
  match cmpOrd? a b with
  | some o => .ok (.bool (f o))
  | Option.none =>
    .error (.other "TypeError" ("unorderable types: " ++ typeName a ++ "() and " ++ typeName b ++ "()") [])

/-- The `_compare_ops` table: each entry applies the corresponding host
comparison to the two evaluated operands. -/
def compare_ops : CmpOpKind → Value → Value → Except Exc Value
  | .eq, a, b => .ok (.bool (pyEq a b))
  | .notEq, a, b => .ok (.bool (!pyEq a b))
  | .lt, a, b => ordCompare a b (fun o => o == .lt)
  | .ltE, a, b => ordCompare a b (fun o => o == .lt || o == .eq)
  | .gt, a, b => ordCompare a b (fun o => o == .gt)
  | .gtE, a, b => ordCompare a b (fun o => o == .gt || o == .eq)
  | .is, a, b => .ok (.bool (pyIs a b))
  | .isNot, a, b => .ok (.bool (!pyIs a b))
  | .in_, a, b =>
    match pyIn a b with
    | .ok r => .ok (.bool r)
    | .error e => .error e
  | .notIn, a, b =>
    match pyIn a b with
    | .ok r => .ok (.bool (!r))
    | .error e => .error e

/-- A caller-supplied (or builtin) function: receives the evaluated
positional arguments and the keyword-argument dictionary, returns a value
or raises. -/
def PyFunc : Type := List Value → List (String × Value) → Except Exc Value

/-- Truncation toward zero, the host `int()` conversion of a float. -/
def truncRat (q : ℚ) : Int := if q < 0 then -⌊-q⌋ else ⌊q⌋

/-- The host builtin `int`: identity on ints, 0/1 on bools, truncation on
floats, base-10 parse on strings (only integer literals are modelled),
TypeError otherwise; surplus arguments raise TypeError. -/
def builtin_int : PyFunc := fun args kwargs =>
  match args, kwargs with
  | [], [] => .ok (.int 0)
  | [v], [] =>
    match v with
    | .bool b => .ok (.int (if b then 1 else 0))
    | .int n => .ok (.int n)
    | .float q => .ok (.int (truncRat q))
    | .str s =>
      match s.trim.toInt? with
      | some n => .ok (.int n)
      | Option.none => .error (.other "ValueError" ("invalid literal for int() with base 10: " ++ s) [])
    | .none => .error (.other "TypeError" "int() argument must be a string or a number, not NoneType" [])
  | _, _ => .error (.other "TypeError" "int() takes at most 2 arguments" [])

/-- The host builtin `float`: numeric values embed, strings parse (only
integer literals are modelled), TypeError otherwise. -/
def builtin_float : PyFunc := fun args kwargs =>
  match args, kwargs with
  | [], [] => .ok (.float ((0 : Int) : ℚ))
  | [v], [] =>
    match ratValue? v with
    | some x => .ok (.float x)
    | Option.none =>
      match v with
      | .str s =>
        match s.trim.toInt? with
        | some n => .ok (.float ((n : Int) : ℚ))
        | Option.none => .error (.other "ValueError" ("could not convert string to float: " ++ s) [])
      | _ => .error (.other "TypeError" ("float() argument must be a string or a number, not " ++ typeName v) [])
  | _, _ => .error (.other "TypeError" "float() takes at most 1 argument" [])

/-- The host builtin `bool`: truthiness of the argument. -/
def builtin_bool : PyFunc := fun args kwargs =>
  match args, kwargs with
  | [], [] => .ok (.bool false)
  | [v], [] => .ok (.bool (truthy v))
  | _, _ => .error (.other "TypeError" "bool() takes at most 1 argument" [])

/-- The `_variable_names` table of predefined constants. -/
def variable_names : List (String × Value) :=
  [("True", .bool true), ("False", .bool false), ("None", .none)]

/-- The `_function_names` table of predefined functions. -/
def function_names : List (String × PyFunc) :=
  [("int", builtin_int), ("float", builtin_float), ("bool", builtin_bool)]

/-- The `Expression_Parser` instance state: the caller-supplied
`self._variables` and `self._functions` mappings (dictionaries, modelled
as association lists with distinct keys looked up by first match). -/
structure ExpressionParser where
  vars : List (String × Value)
  funcs : List (String × PyFunc)

/-- Keys of the caller's variables that collide with `_variable_names`,
as computed by `__init__` (`set.intersection`; the set iteration order of
the host is determinized here to the order of `_variable_names`). -/
def forbiddenKeys (vs : List (String × Value)) : List String :=
  (variable_names.map Prod.fst).filter (fun k => (vs.map Prod.fst).contains k)

/-- The `__init__` constructor: defaults both mappings to empty, rejects
caller variables that would override a predefined constant with a
NameError naming the offending keys, and performs no validation on
`functions`. -/
def initExpressionParser (vars0 : Option (List (String × Value)))
    (funcs0 : Option (List (String × PyFunc))) : Except Exc ExpressionParser :=
  let vs := vars0.getD []
  let forbidden := forbiddenKeys vs
  if forbidden.isEmpty then
    .ok ⟨vs, funcs0.getD []⟩
  else
    .error (.other "NameError"
      ("Cannot override " ++ (if forbidden.length == 1 then "keyword" else "keywords")
        ++ " " ++ String.intercalate ", " forbidden) [])

/-- The `generic_visit` method: `raise SyntaxError('Node {} not allowed'
.format(ast.dump(node)), ('', node.lineno, node.col_offset, ''))`. -/
def generic_visit (dumpStr : String) (lineno col : Nat) : Except Exc Value :=
  .error (.syn ("Node " ++ dumpStr ++ " not allowed") "" lineno col "")

/-- Resolution of a call target in `visit_Call`: `self._functions` first,
then `_function_names`, else `NameError("Function '{}' is not defined"
.format(name), node.lineno, node.col_offset)`. -/
def resolveFunction (p : ExpressionParser) (fname : String) (lineno col : Nat) :
    Except Exc PyFunc :=
  match (p.funcs).lookup fname with
  | some f => .ok f
  | Option.none =>
    match function_names.lookup fname with
    | some f => .ok f
    | Option.none =>
      .error (.other "NameError" ("Function \x27" ++ fname ++ "\x27 is not defined") [lineno, col])

/-- Insertion into a host dictionary: a duplicate key overwrites the
earlier value in place. -/
def dictInsert (d : List (String × Value)) (k : String) (v : Value) :
    List (String × Value) :=
  if d.any (fun kv => kv.1 == k) then
    d.map (fun kv => if kv.1 == k then (k, v) else kv)
  else d ++ [(k, v)]

/-- The `dict([...])` built from the visited keyword pairs in
`visit_Call`: later duplicate keys overwrite earlier ones. -/
def dictOfPairs (pairs : List (String × Value)) : List (String × Value) :=
  pairs.foldl (fun d kv => dictInsert d kv.1 kv.2) []

mutual

/-- The `visit` dispatcher of `ast.NodeVisitor` specialised to
`Expression_Parser`: one arm per `visit_...` method of the source, and a
catch-all arm routing every node kind without a visitor to
`generic_visit`. -/
def visit (p : ExpressionParser) (e : Expr) : Except Exc Value :=
  match e with
  | .boolOp op values _ _ =>
    -- visit_BoolOp: `result = func(self.visit(node.values[0]),
    -- self.visit(node.values[1]))`, then a fold over `node.values[2:]`.
    -- Both arguments of `func` are evaluated before it is applied, so
    -- every operand is visited; indexing an absent element raises
    -- IndexError (never reachable from a host-parsed tree).
    (match values with
     | e0 :: e1 :: rest =>
       (match visit p e0 with
        | .error ex => .error ex
        | .ok v0 =>
          match visit p e1 with
          | .error ex => .error ex
          | .ok v1 => visitBoolOpRest p op (boolean_ops op v0 v1) rest)
     | [e0] =>
       (match visit p e0 with
        | .error ex => .error ex
        | .ok _ => .error (.other "IndexError" "list index out of range" []))
     | [] => .error (.other "IndexError" "list index out of range" []))
  | .binOp left op right _ _ =>
    -- visit_BinOp: `func(self.visit(node.left), self.visit(node.right))`.
    (match visit p left with
     | .error ex => .error ex
     | .ok lv =>
       match visit p right with
       | .error ex => .error ex
       | .ok rv => binary_ops op lv rv)
  | .unaryOp op operand _ _ =>
    -- visit_UnaryOp: `func(self.visit(node.operand))`.
    (match visit p operand with
     | .error ex => .error ex
     | .ok v => unary_ops op v)
  | .ifExp test body orelse _ _ =>
    -- visit_IfExp: `self.visit(node.body) if self.visit(node.test) else
    -- self.visit(node.orelse)` — the untaken branch is never visited.
    (match visit p test with
     | .error ex => .error ex
     | .ok t => if truthy t then visit p body else visit p orelse)
  | .compare left ops comparators _ _ =>
    -- visit_Compare: `result = self.visit(node.left)`, then for each
    -- `(operator, comparator)` of `zip(node.ops, node.comparators)`:
    -- `result = func(result, self.visit(comparator))`.
    (match visit p left with
     | .error ex => .error ex
     | .ok r => visitCompareRest p r ops comparators)
  | .call fname args keywords starargs kwargs lineno col =>
    -- visit_Call: resolve the callee by name, evaluate all positional
    -- arguments, build the keyword dictionary, reject star arguments
    -- (after argument evaluation, as in the source), then apply.
    (match resolveFunction p fname lineno col with
     | .error ex => .error ex
     | .ok f =>
       match visitList p args with
       | .error ex => .error ex
       | .ok argVals =>
         match visitKeywords p keywords with
         | .error ex => .error ex
         | .ok kwPairs =>
           if starargs.isSome || kwargs.isSome then
             .error (.syn "Star arguments are not supported" "" lineno col "")
           else f argVals (dictOfPairs kwPairs))
  | .num n _ _ => .ok n
  | .name id lineno col =>
    -- visit_Name: `self._variables` first, then `_variable_names`, else
    -- `NameError("Name '{}' is not defined".format(node.id),
    -- node.lineno, node.col_offset)`.
    (match (p.vars).lookup id with
     | some v => .ok v
     | Option.none =>
       match variable_names.lookup id with
       | some v => .ok v
       | Option.none =>
         .error (.other "NameError" ("Name \x27" ++ id ++ "\x27 is not defined") [lineno, col]))
  | .nameConstant v _ _ => .ok v
  | .str_ _ _ _ | .lambda_ _ _ | .attribute_ _ _ | .subscript_ _ _ =>
    generic_visit e.dump e.lineno e.col

/-- Evaluation of a list of argument expressions in order, as the list
comprehension `[self.visit(arg) for arg in node.args]` does: the first
raised exception propagates. -/
def visitList (p : ExpressionParser) : List Expr → Except Exc (List Value)
  | [] => .ok []
  | e :: es =>
    match visit p e with
    | .error ex => .error ex
    | .ok v =>
      match visitList p es with
      | .error ex => .error ex
      | .ok vs => .ok (v :: vs)

/-- Evaluation of the keyword arguments in order, as
`[self.visit(keyword) for keyword in node.keywords]` with `visit_keyword`
returning `(node.arg, self.visit(node.value))`. -/
def visitKeywords (p : ExpressionParser) :
    List (String × Expr) → Except Exc (List (String × Value))
  | [] => .ok []
  | (k, e) :: rest =>
    match visit p e with
    | .error ex => .error ex
    | .ok v =>
      match visitKeywords p rest with
      | .error ex => .error ex
      | .ok vs => .ok ((k, v) :: vs)

/-- The fold of `visit_BoolOp` over `node.values[2:]`:
`result = func(result, self.visit(value))` for each remaining operand. -/
def visitBoolOpRest (p : ExpressionParser) (op : BoolOpKind) (result : Value) :
    List Expr → Except Exc Value
  | [] => .ok result
  | e :: es =>
    match visit p e with
    | .error ex => .error ex
    | .ok v => visitBoolOpRest p op (boolean_ops op result v) es

/-- The loop of `visit_Compare` over `zip(node.ops, node.comparators)`:
the comparator is visited, then the operator is applied to the running
result, which is replaced by the outcome. -/
def visitCompareRest (p : ExpressionParser) (result : Value) :
    List CmpOpKind → List Expr → Except Exc Value
  | op :: ops, cexp :: cs =>
    (match visit p cexp with
     | .error ex => .error ex
     | .ok v =>
       match compare_ops op result v with
       | .error ex => .error ex
       | .ok r => visitCompareRest p r ops cs)
  | _, _ => .ok result

end

/-- Evaluation of a statement: `visit_Expr` returns
`self.visit(node.value)`; every other statement kind has no visitor and
falls to `generic_visit`. -/
def visitStmt (p : ExpressionParser) (s : Stmt) : Except Exc Value :=
  match s with
  | .expr value _ _ => visit p value
  | _ => generic_visit s.dump s.lineno s.col

/-- The `visit_Module` method: exactly one statement is required; with
more than one the error points at the second statement, with zero it
points at (1, 0); with exactly one, that statement is visited. -/
def visit_Module (p : ExpressionParser) (node : Module) : Except Exc Value :=
  match node.body with
  | [stmt] => visitStmt p stmt
  | [] => .error (.syn "Exactly one expression must be provided" "" 1 0 "")
  | _ :: second :: _ =>
    .error (.syn "Exactly one expression must be provided" "" second.lineno second.col "")

/-- The `parse` method, modelled on the tree the host `ast.parse` returns
for the expression text.  A raised SyntaxError gets its `filename` and
`text` set and is re-raised; any other exception is normalized to a
SyntaxError whose message is `'{kind}: {args[0]}'`, whose position is
`args[1:]` when the exception carried more than two arguments and (1, 0)
otherwise, and which carries the filename and the expression text. -/
def parse (p : ExpressionParser) (tree : Module) (expression filename : String) :
    Except SyntaxErrorData Value :=
  match visit_Module p tree with
  | .ok v => .ok v
  | .error (.syn msg _ lineno col _) =>
    .error ⟨msg, filename, lineno, col, expression⟩
  | .error (.other kind msg extra) =>
    .error ⟨kind ++ ": " ++ msg, filename,
      (if 1 + extra.length > 2 then extra.getD 0 1 else 1),
      (if 1 + extra.length > 2 then extra.getD 1 0 else 0), expression⟩

/-- Expression node kinds for which the source defines no `visit_...`
method, so that reaching them falls to `generic_visit`. -/
def Expr.isDisallowedNode : Expr → Bool
  | .str_ .. => true
  | .lambda_ .. => true
  | .attribute_ .. => true
  | .subscript_ .. => true
  | _ => false

/-- Statement kinds without a visitor (everything except `ast.Expr`). -/
def Stmt.isDisallowed : Stmt → Bool
  | .expr .. => false
  | _ => true

mutual

/-- Spec-side notion for the sandboxing claim: the syntax tree contains,
anywhere, a construct outside the whitelisted grammar. -/
def Expr.containsDisallowed : Expr → Bool
  | .boolOp _ values _ _ => exprsContainDisallowed values
  | .binOp left _ right _ _ => left.containsDisallowed || right.containsDisallowed
  | .unaryOp _ operand _ _ => operand.containsDisallowed
  | .ifExp t b o _ _ => t.containsDisallowed || b.containsDisallowed || o.containsDisallowed
  | .compare left _ comparators _ _ =>
      left.containsDisallowed || exprsContainDisallowed comparators
  | .call _ args keywords starargs kwargs _ _ =>
      exprsContainDisallowed args || keywordsContainDisallowed keywords ||
      optContainsDisallowed starargs || optContainsDisallowed kwargs
  | .num .. => false
  | .name .. => false
  | .nameConstant .. => false
  | .str_ .. => true
  | .lambda_ .. => true
  | .attribute_ .. => true
  | .subscript_ .. => true

/-- Disallowed-construct search over a list of child expressions. -/
def exprsContainDisallowed : List Expr → Bool
  | [] => false
  | e :: es => e.containsDisallowed || exprsContainDisallowed es

/-- Disallowed-construct search over keyword arguments. -/
def keywordsContainDisallowed : List (String × Expr) → Bool
  | [] => false
  | (_, e) :: rest => e.containsDisallowed || keywordsContainDisallowed rest

/-- Disallowed-construct search over an optional child. -/
def optContainsDisallowed : Option Expr → Bool
  | Option.none => false
  | some e => e.containsDisallowed

end

/-- Disallowed-construct search over a statement. -/
def Stmt.containsDisallowed : Stmt → Bool
  | .expr value _ _ => value.containsDisallowed
  | _ => true

/-- Disallowed-construct search over a whole module. -/
def Module.containsDisallowed (m : Module) : Bool :=
  m.body.any Stmt.containsDisallowed

/-- Spec-side value of a boolean chain, following the claim wording: for
`and` the first falsy operand value, for `or` the first truthy operand
value, and the last operand value when no earlier operand decides. -/
def shortCircuitValue (op : BoolOpKind) (v : Value) : List Value → Value
  | [] => v
  | w :: ws =>
    match op with
    | .and => if truthy v then shortCircuitValue op w ws else v
    | .or => if truthy v then v else shortCircuitValue op w ws

/-- Spec-side running reduction of a comparison chain, following the claim
wording: `r_i = op_i(r_(i-1), v_i)` over the already-evaluated comparator
values. -/
def reduceCompareValues (r : Value) : List CmpOpKind → List Value → Except Exc Value
  | op :: ops, v :: vs =>
    (match compare_ops op r v with
     | .error ex => .error ex
     | .ok r2 => reduceCompareValues r2 ops vs)
  | _, _ => .ok r

/-- A parser with no caller-supplied variables or functions, as
`Expression_Parser()` constructs. -/
def emptyParser : ExpressionParser := ⟨[], []⟩

/-- The test suite's `lambda: 2` function `x2`: accepts no arguments and
returns 2, raising the host's arity TypeError otherwise (a TypeError has
a message as its only argument). -/
def x2Fn : PyFunc := fun args kwargs =>
  match args, kwargs with
  | [], [] => .ok (.int 2)
  | _, _ => .error (.other "TypeError" "<lambda>() takes no arguments" [])

/-- The test suite's `lambda x, y=2: x ** y` function `square`. -/
def squareFn : PyFunc := fun args kwargs =>
  match args, kwargs with
  | [x], [] => binary_ops .pow x (.int 2)
  | [x], [("y", y)] => binary_ops .pow x y
  | [x, y], [] => binary_ops .pow x y
  | _, _ => .error (.other "TypeError" "<lambda>() got unexpected arguments" [])

/-- A parser constructed with `functions={'x2': lambda: 2}`. -/
def x2Parser : ExpressionParser := ⟨[], [("x2", x2Fn)]⟩

/-- A parser with one variable and one function, for the resolution-order
witnesses. -/
def envParser : ExpressionParser := ⟨[("x", .int 42)], [("square", squareFn)]⟩

/-- The tree of `'1 if True else (lambda : 0)'`: a conditional whose
untaken branch is a lambda, i.e. a tree that contains a disallowed
construct. -/
def lazyBranchTree : Module :=
  ⟨[Stmt.expr (Expr.ifExp (Expr.nameConstant (Value.bool true) 1 5)
      (Expr.num (Value.int 1) 1 0) (Expr.lambda_ 1 16) 1 0) 1 0]⟩

/-- The tree of `'0 and x'` with `x` undefined: the first operand is
falsy, the second operand raises if evaluated. -/
def eagerAndTree : Module :=
  ⟨[Stmt.expr (Expr.boolOp .and
      [Expr.num (Value.int 0) 1 0, Expr.name "x" 1 6] 1 0) 1 0]⟩

/-- The tree of `'\x27a\x27'`: a single string-literal expression. -/
def strLiteralTree : Module :=
  ⟨[Stmt.expr (Expr.str_ "a" 1 0) 1 0]⟩

/-- Flooring integer division agrees with flooring division by negated
operands (used to reduce negative divisors to positive ones). -/
theorem fdiv_neg_neg (a b : Int) (hb : b < 0) : Int.fdiv a b = Int.fdiv (-a) (-b) := by
  rcases b with n | n
  · exact absurd hb (by have h0 : (Int.ofNat n) = (n : ℤ) := rfl; omega)
  · rcases a with m | m
    · rcases m with _ | m
      · rfl
      · rfl
    · rfl

/-- The host's flooring integer division is the floor of the rational
quotient. -/
theorem fdiv_eq_floor (a b : Int) (h : b ≠ 0) : Int.fdiv a b = ⌊(a : ℚ) / (b : ℚ)⌋ := by
  have key : ∀ (x y : Int), 0 < y → Int.fdiv x y = ⌊(x : ℚ) / (y : ℚ)⌋ := by
    intro x y hy
    obtain ⟨d, rfl⟩ : ∃ d : ℕ, y = (d : ℤ) := ⟨y.toNat, by omega⟩
    rw [Int.fdiv_eq_ediv _ (by omega)]
    have hc : (((d : ℤ)) : ℚ) = ((d : ℕ) : ℚ) := by push_cast; ring
    rw [hc, Rat.floor_intCast_div_natCast]
  rcases lt_or_gt_of_ne h with hb | hb
  · rw [fdiv_neg_neg a b hb, key (-a) (-b) (by omega)]
    congr 1
    push_cast
    rw [neg_div_neg_eq]
  · exact key a b hb

/-- A falsy running value absorbs the rest of an `and` chain. -/
theorem shortCircuitValue_and_falsy :
    ∀ (ws : List Value) (r : Value), truthy r = false → shortCircuitValue .and r ws = r := by
  intro ws
  induction ws with
  | nil => intro r _; rfl
  | cons w ws ih => intro r h; simp [shortCircuitValue, h]

/-- A truthy running value absorbs the rest of an `or` chain. -/
theorem shortCircuitValue_or_truthy :
    ∀ (ws : List Value) (r : Value), truthy r = true → shortCircuitValue .or r ws = r := by
  intro ws
  induction ws with
  | nil => intro r _; rfl
  | cons w ws ih => intro r h; simp [shortCircuitValue, h]

/-- The pairwise fold through the `_boolean_ops` lambda computes exactly
the short-circuit selection of the claim wording. -/
theorem foldl_boolean_ops (op : BoolOpKind) :
    ∀ (ws : List Value) (r : Value),
      ws.foldl (boolean_ops op) r = shortCircuitValue op r ws := by
  intro ws
  induction ws with
  | nil => intro r; rfl
  | cons w ws ih =>
    intro r
    rw [List.foldl_cons, ih]
    cases op with
    | and =>
      cases ht : truthy r with
      | true => simp [shortCircuitValue, boolean_ops, ht]
      | false => simp [shortCircuitValue, boolean_ops, ht, shortCircuitValue_and_falsy ws r ht]
    | or =>
      cases ht : truthy r with
      | true => simp [shortCircuitValue, boolean_ops, ht, shortCircuitValue_or_truthy ws r ht]
      | false => simp [shortCircuitValue, boolean_ops, ht]

/-- Absorbing the second operand into the running value preserves the
short-circuit selection. -/
theorem shortCircuitValue_cons (op : BoolOpKind) (v0 v1 : Value) (rest : List Value) :
    shortCircuitValue op v0 (v1 :: rest) = shortCircuitValue op (boolean_ops op v0 v1) rest := by
  cases op with
  | and =>
    cases ht : truthy v0 with
    | true => simp [shortCircuitValue, boolean_ops, ht]
    | false => simp [shortCircuitValue, boolean_ops, ht, shortCircuitValue_and_falsy rest v0 ht]
  | or =>
    cases ht : truthy v0 with
    | true => simp [shortCircuitValue, boolean_ops, ht, shortCircuitValue_or_truthy rest v0 ht]
    | false => simp [shortCircuitValue, boolean_ops, ht]

/-- When every remaining operand evaluates, the `visit_BoolOp` fold over
`values[2:]` computes the value-level fold of the `_boolean_ops` entry. -/
theorem visitBoolOpRest_ok (p : ExpressionParser) (op : BoolOpKind) :
    ∀ (es : List Expr) (vs : List Value) (r : Value),
      visitList p es = .ok vs →
      visitBoolOpRest p op r es = .ok (vs.foldl (boolean_ops op) r) := by
  intro es
  induction es with
  | nil =>
    intro vs r h
    simp only [visitList] at h
    cases h
    rfl
  | cons e es ih =>
    intro vs r h
    simp only [visitList] at h
    cases he : visit p e with
    | error ex => rw [he] at h; exact absurd h (by simp)
    | ok v =>
      rw [he] at h
      cases hes : visitList p es with
      | error ex => rw [hes] at h; exact absurd h (by simp)
      | ok tail =>
        rw [hes] at h
        cases h
        rw [visitBoolOpRest, he]
        dsimp only
        rw [ih tail (boolean_ops op r v) hes]
        rfl

/-- An exception among the remaining operands propagates out of the
`visit_BoolOp` fold. -/
theorem visitBoolOpRest_err (p : ExpressionParser) (op : BoolOpKind) :
    ∀ (es : List Expr) (r : Value) (ex : Exc),
      visitList p es = .error ex → visitBoolOpRest p op r es = .error ex := by
  intro es
  induction es with
  | nil => intro r ex h; exact absurd h (by simp [visitList])
  | cons e es ih =>
    intro r ex h
    simp only [visitList] at h
    cases he : visit p e with
    | error ex0 =>
      rw [he] at h
      cases h
      rw [visitBoolOpRest, he]
    | ok v =>
      rw [he] at h
      cases hes : visitList p es with
      | error ex0 =>
        rw [hes] at h
        cases h
        rw [visitBoolOpRest, he]
        dsimp only
        exact ih (boolean_ops op r v) ex hes
      | ok tail => rw [hes] at h; exact absurd h (by simp)

/-- When every comparator evaluates, the `visit_Compare` loop computes the
running reduction over the evaluated comparator values. -/
theorem visitCompareRest_eq (p : ExpressionParser) :
    ∀ (ops : List CmpOpKind) (cs : List Expr) (vs : List Value) (r : Value),
      visitList p cs = .ok vs →
      visitCompareRest p r ops cs = reduceCompareValues r ops vs := by
  intro ops
  induction ops with
  | nil =>
    intro cs vs r _
    cases cs <;> cases vs <;> rfl
  | cons op ops ih =>
    intro cs vs r h
    cases cs with
    | nil =>
      simp only [visitList] at h
      cases h
      rfl
    | cons cexp cs2 =>
      simp only [visitList] at h
      cases hc : visit p cexp with
      | error ex => rw [hc] at h; exact absurd h (by simp)
      | ok v =>
        rw [hc] at h
        cases hcs : visitList p cs2 with
        | error ex => rw [hcs] at h; exact absurd h (by simp)
        | ok tail =>
          rw [hcs] at h
          cases h
          rw [visitCompareRest, hc]
          dsimp only
          cases hcmp : compare_ops op r v with
          | error ex =>
            rw [reduceCompareValues, hcmp]
          | ok r2 =>
            rw [reduceCompareValues, hcmp]
            dsimp only
            exact ih cs2 tail r2 hcs

/-- C1 (counterexample): a tree that contains a disallowed construct (a
lambda) in the untaken branch of a conditional is evaluated to a value by
`parse` — the claim's "no such input ever returns a value" is false. -/
theorem claim_C1_counterexample :
    Module.containsDisallowed lazyBranchTree = true ∧
    parse emptyParser lazyBranchTree "1 if True else (lambda : 0)" "<expression>" =
      .ok (Value.int 1) := ⟨rfl, rfl⟩

/-- C1 (amended): every disallowed node that evaluation reaches raises a
SyntaxError whose message is "Node ... not allowed" and whose position is
that node's (lineno, col_offset); a module whose sole statement is (or
directly wraps) a disallowed node therefore always fails this way.  Nodes
inside an unevaluated conditional branch are not reached. -/
theorem claim_C1_amended (p : ExpressionParser) (e : Expr) (st : Stmt)
    (src fn : String) (l c : Nat) :
    (Expr.isDisallowedNode e = true →
      visit p e = .error (.syn ("Node " ++ e.dump ++ " not allowed") "" e.lineno e.col "") ∧
      parse p ⟨[Stmt.expr e l c]⟩ src fn =
        .error ⟨"Node " ++ e.dump ++ " not allowed", fn, e.lineno, e.col, src⟩) ∧
    (Stmt.isDisallowed st = true →
      parse p ⟨[st]⟩ src fn =
        .error ⟨"Node " ++ st.dump ++ " not allowed", fn, st.lineno, st.col, src⟩) := by
  constructor
  · intro he
    cases e <;> first
      | exact ⟨rfl, rfl⟩
      | simp [Expr.isDisallowedNode] at he
  · intro hs
    cases st <;> first
      | exact rfl
      | simp [Stmt.isDisallowed] at hs

/-- C1 (witness): a while-loop statement is rejected with the node message
and its position. -/
theorem claim_C1_witness :
    parse emptyParser ⟨[Stmt.while_ 1 0]⟩ "while True: pass" "<expression>" =
      .error ⟨"Node While(...) not allowed", "<expression>", 1, 0, "while True: pass"⟩ :=
  (claim_C1_amended emptyParser (Expr.num (Value.int 0) 1 0) (Stmt.while_ 1 0)
    "while True: pass" "<expression>" 1 0).2 rfl

/-- C2 (confirmed): zero statements are rejected at (1, 0), two or more
statements are rejected at the second statement's position, both with the
message "Exactly one expression must be provided"; a single expression
statement proceeds to evaluation of that statement. -/
theorem claim_C2 (p : ExpressionParser) (m : Module) (src fn : String) :
    (m.body = [] →
      parse p m src fn = .error ⟨"Exactly one expression must be provided", fn, 1, 0, src⟩) ∧
    (∀ s1 s2 rest, m.body = s1 :: s2 :: rest →
      parse p m src fn =
        .error ⟨"Exactly one expression must be provided", fn, s2.lineno, s2.col, src⟩) ∧
    (∀ e l c, m.body = [Stmt.expr e l c] → visit_Module p m = visit p e) := by
  obtain ⟨body⟩ := m
  refine ⟨?_, ?_, ?_⟩
  · intro h
    simp only at h
    subst h
    rfl
  · intro s1 s2 rest h
    simp only at h
    subst h
    rfl
  · intro e l c h
    simp only at h
    subst h
    rfl

/-- C2 (witness): the empty module, the module of `'1;2'`, and a
single-expression module. -/
theorem claim_C2_witness :
    parse emptyParser ⟨[]⟩ "" "<expression>" =
      .error ⟨"Exactly one expression must be provided", "<expression>", 1, 0, ""⟩ ∧
    parse emptyParser ⟨[Stmt.expr (Expr.num (Value.int 1) 1 0) 1 0,
        Stmt.expr (Expr.num (Value.int 2) 1 2) 1 2]⟩ "1;2" "<expression>" =
      .error ⟨"Exactly one expression must be provided", "<expression>", 1, 2, "1;2"⟩ ∧
    visit_Module emptyParser ⟨[Stmt.expr (Expr.num (Value.int 7) 1 0) 1 0]⟩ =
      visit emptyParser (Expr.num (Value.int 7) 1 0) :=
  ⟨(claim_C2 emptyParser ⟨[]⟩ "" "<expression>").1 rfl,
   (claim_C2 emptyParser ⟨[Stmt.expr (Expr.num (Value.int 1) 1 0) 1 0,
      Stmt.expr (Expr.num (Value.int 2) 1 2) 1 2]⟩ "1;2" "<expression>").2.1 _ _ _ rfl,
   (claim_C2 emptyParser ⟨[Stmt.expr (Expr.num (Value.int 7) 1 0) 1 0]⟩ "7" "<expression>").2.2
      _ 1 0 rfl⟩

/-- C3 (confirmed): an exception that is not a SyntaxError is re-raised by
`parse` as a SyntaxError whose message is the exception's class name,
": ", and its message; the position is the exception's arguments after the
first when it carried more than two arguments and (1, 0) otherwise; the
error carries the source label and the expression text. -/
theorem claim_C3 (p : ExpressionParser) (m : Module) (src fn kind msg : String)
    (extra : List Nat) (h : visit_Module p m = .error (.other kind msg extra)) :
    parse p m src fn =
      .error ⟨kind ++ ": " ++ msg, fn,
        (if 1 + extra.length > 2 then extra.getD 0 1 else 1),
        (if 1 + extra.length > 2 then extra.getD 1 0 else 0), src⟩ := by
  simp only [parse]
  rw [h]

/-- C3 (witness): a callee arity TypeError (one argument, position
defaults to (1, 0)) and an undefined-function NameError (three arguments,
position taken from them). -/
theorem claim_C3_witness :
    parse x2Parser ⟨[Stmt.expr (Expr.call "x2" [Expr.num (Value.int 1) 1 3,
        Expr.num (Value.int 2) 1 5, Expr.num (Value.int 3) 1 7] []
        Option.none Option.none 1 0) 1 0]⟩ "x2(1,2,3)" "<expression>" =
      .error ⟨"TypeError: <lambda>() takes no arguments", "<expression>", 1, 0, "x2(1,2,3)"⟩ ∧
    parse emptyParser ⟨[Stmt.expr (Expr.call "x1" [] [] Option.none Option.none 1 4) 1 4]⟩
      "x1()" "<expression>" =
      .error ⟨"NameError: Function \x27x1\x27 is not defined", "<expression>", 1, 4, "x1()"⟩ :=
  ⟨claim_C3 x2Parser _ "x2(1,2,3)" "<expression>" "TypeError"
      "<lambda>() takes no arguments" [] rfl,
   claim_C3 emptyParser _ "x1()" "<expression>" "NameError"
      "Function \x27x1\x27 is not defined" [1, 4] rfl⟩

/-- C4 (counterexample): in `'0 and x'` with `x` undefined the first
operand is falsy, yet the second operand is still evaluated, so `parse`
raises instead of returning 0 — the claim's "the operands after it are
never evaluated" is false. -/
theorem claim_C4_counterexample :
    parse emptyParser eagerAndTree "0 and x" "<expression>" =
      .error ⟨"NameError: Name \x27x\x27 is not defined", "<expression>", 1, 6, "0 and x"⟩ ∧
    parse emptyParser eagerAndTree "0 and x" "<expression>" ≠ .ok (Value.int 0) := by
  refine ⟨rfl, ?_⟩
  intro h
  rw [show parse emptyParser eagerAndTree "0 and x" "<expression>" =
      Except.error ⟨"NameError: Name \x27x\x27 is not defined", "<expression>", 1, 6, "0 and x"⟩
      from rfl] at h
  exact Except.noConfusion h

/-- C4 (amended): every operand of a BoolOp is evaluated eagerly, left to
right (an exception in any operand propagates, even when an earlier
operand already decides the result); when all operands evaluate, the
result is the short-circuit selection over the values: for `and` the
first falsy operand value, for `or` the first truthy, else the last, so
`'1 and 2 and 3'` yields 3 and `'1 or 2 or 3'` yields 1. -/
theorem claim_C4_amended (p : ExpressionParser) (op : BoolOpKind)
    (values : List Expr) (l c : Nat) :
    (∀ v0 v1 rest, visitList p values = .ok (v0 :: v1 :: rest) →
      visit p (.boolOp op values l c) = .ok (shortCircuitValue op v0 (v1 :: rest))) ∧
    (∀ ex, visitList p values = .error ex →
      visit p (.boolOp op values l c) = .error ex) := by
  constructor
  · intro v0 v1 rest h
    cases values with
    | nil => simp [visitList] at h
    | cons e0 tail =>
      cases tail with
      | nil =>
        simp only [visitList] at h
        cases he0 : visit p e0 <;> rw [he0] at h <;> simp at h
      | cons e1 es =>
        simp only [visitList] at h
        cases he0 : visit p e0 with
        | error ex => rw [he0] at h; simp at h
        | ok w0 =>
          rw [he0] at h
          cases he1 : visit p e1 with
          | error ex => rw [he1] at h; simp at h
          | ok w1 =>
            rw [he1] at h
            cases hes : visitList p es with
            | error ex => rw [hes] at h; simp at h
            | ok ws =>
              rw [hes] at h
              simp only [Except.ok.injEq, List.cons.injEq] at h
              obtain ⟨h0, h1, h2⟩ := h
              subst h0
              subst h1
              subst h2
              simp only [visit]
              rw [he0]
              dsimp only
              rw [he1]
              dsimp only
              rw [visitBoolOpRest_ok p op es _ _ hes]
              rw [foldl_boolean_ops op]
              rw [shortCircuitValue_cons op]
  · intro ex h
    cases values with
    | nil => simp [visitList] at h
    | cons e0 tail =>
      simp only [visitList] at h
      cases he0 : visit p e0 with
      | error ex0 =>
        rw [he0] at h
        cases tail with
        | nil =>
          simp only at h
          cases h
          simp only [visit]
          rw [he0]
        | cons e1 es =>
          simp only at h
          cases h
          simp only [visit]
          rw [he0]
      | ok v0 =>
        rw [he0] at h
        cases tail with
        | nil => simp [visitList] at h
        | cons e1 es =>
          simp only [visitList] at h
          cases he1 : visit p e1 with
          | error ex1 =>
            rw [he1] at h
            simp only at h
            cases h
            simp only [visit]
            rw [he0]
            dsimp only
            rw [he1]
          | ok v1 =>
            rw [he1] at h
            cases hes : visitList p es with
            | error ex2 =>
              rw [hes] at h
              simp only at h
              cases h
              simp only [visit]
              rw [he0]
              dsimp only
              rw [he1]
              dsimp only
              exact visitBoolOpRest_err p op es (boolean_ops op v0 v1) ex hes
            | ok ws => rw [hes] at h; simp at h

/-- C4 (witness): `'1 and 2 and 3'` yields 3 and `'1 or 2 or 3'` yields 1
through the short-circuit selection. -/
theorem claim_C4_witness :
    visit emptyParser (Expr.boolOp .and [Expr.num (Value.int 1) 1 0,
      Expr.num (Value.int 2) 1 6, Expr.num (Value.int 3) 1 12] 1 0) = .ok (Value.int 3) ∧
    visit emptyParser (Expr.boolOp .or [Expr.num (Value.int 1) 1 0,
      Expr.num (Value.int 2) 1 5, Expr.num (Value.int 3) 1 10] 1 0) = .ok (Value.int 1) :=
  ⟨((claim_C4_amended emptyParser .and [Expr.num (Value.int 1) 1 0,
      Expr.num (Value.int 2) 1 6, Expr.num (Value.int 3) 1 12] 1 0).1
      (Value.int 1) (Value.int 2) [Value.int 3] rfl).trans rfl,
   ((claim_C4_amended emptyParser .or [Expr.num (Value.int 1) 1 0,
      Expr.num (Value.int 2) 1 5, Expr.num (Value.int 3) 1 10] 1 0).1
      (Value.int 1) (Value.int 2) [Value.int 3] rfl).trans rfl⟩

/-- C5 (confirmed): a Compare node is a running reduction: the left
operand is evaluated, then each comparator in order, each operator applied
to the previous running result — no short-circuit on an early false, so
`'3 > 2 > 1'` computes `(3 > 2) > 1`, i.e. `True > 1`, i.e. false. -/
theorem claim_C5 (p : ExpressionParser) (left : Expr) (ops : List CmpOpKind)
    (comparators : List Expr) (l c : Nat) (vs : List Value)
    (h : visitList p comparators = .ok vs) :
    visit p (.compare left ops comparators l c) =
      (match visit p left with
       | .error ex => .error ex
       | .ok r0 => reduceCompareValues r0 ops vs) := by
  cases hl : visit p left with
  | error ex =>
    simp only [visit]
    rw [hl]
  | ok r0 =>
    simp only [visit]
    rw [hl]
    dsimp only
    exact visitCompareRest_eq p ops comparators vs r0 h

/-- C5 (witness): `'3 > 2 > 1'` evaluates both comparators and returns
false, because the running result after `3 > 2` is True and `True > 1` is
false — not the chained-conjunction reading, which would be true. -/
theorem claim_C5_witness :
    visit emptyParser (Expr.compare (Expr.num (Value.int 3) 1 0) [.gt, .gt]
      [Expr.num (Value.int 2) 1 4, Expr.num (Value.int 1) 1 8] 1 0) = .ok (Value.bool false) :=
  (claim_C5 emptyParser (Expr.num (Value.int 3) 1 0) [.gt, .gt]
    [Expr.num (Value.int 2) 1 4, Expr.num (Value.int 1) 1 8] 1 0
    [Value.int 2, Value.int 1] rfl).trans rfl

/-- C6 (counterexample): a single string-literal expression is rejected
with "Node Str(...) not allowed" instead of returning the string value —
the claim that string literals are accepted atoms is false on the code,
which defines no visitor for Str nodes. -/
theorem claim_C6_counterexample :
    parse emptyParser strLiteralTree "\x27a\x27" "<expression>" =
      .error ⟨"Node Str(s=\x27a\x27) not allowed", "<expression>", 1, 0, "\x27a\x27"⟩ ∧
    parse emptyParser strLiteralTree "\x27a\x27" "<expression>" ≠ .ok (Value.str "a") := by
  refine ⟨rfl, ?_⟩
  intro h
  rw [show parse emptyParser strLiteralTree "\x27a\x27" "<expression>" =
      Except.error ⟨"Node Str(s=\x27a\x27) not allowed", "<expression>", 1, 0, "\x27a\x27"⟩
      from rfl] at h
  exact Except.noConfusion h

/-- C6 (amended): a string literal is not an accepted atom: for every
input whose tree is a single string-literal expression, `parse` raises
the generic "Node ... not allowed" SyntaxError at the literal's position
(strings enter the value domain only through variables or function
results, never as literals). -/
theorem claim_C6_amended (p : ExpressionParser) (s : String) (l c l2 c2 : Nat)
    (src fn : String) :
    parse p ⟨[Stmt.expr (Expr.str_ s l c) l2 c2]⟩ src fn =
      .error ⟨"Node " ++ Expr.dump (Expr.str_ s l c) ++ " not allowed", fn, l, c, src⟩ := rfl

/-- C7 (confirmed): name resolution consults the caller's variables first
and the builtin constants second; call-target resolution consults the
caller's functions first and the builtin functions second; an identifier
absent from both applicable mappings raises a NameError that references
the identifier and carries the node's (lineno, col_offset). -/
theorem claim_C7 (p : ExpressionParser) (id : String) (l c : Nat)
    (args : List Expr) (keywords : List (String × Expr)) (starargs kwargs : Option Expr) :
    (∀ v, (p.vars).lookup id = some v → visit p (.name id l c) = .ok v) ∧
    ((p.vars).lookup id = Option.none → ∀ v, variable_names.lookup id = some v →
      visit p (.name id l c) = .ok v) ∧
    ((p.vars).lookup id = Option.none → variable_names.lookup id = Option.none →
      visit p (.name id l c) =
        .error (.other "NameError" ("Name \x27" ++ id ++ "\x27 is not defined") [l, c])) ∧
    (∀ f, (p.funcs).lookup id = some f → resolveFunction p id l c = .ok f) ∧
    ((p.funcs).lookup id = Option.none → ∀ f, function_names.lookup id = some f →
      resolveFunction p id l c = .ok f) ∧
    ((p.funcs).lookup id = Option.none → function_names.lookup id = Option.none →
      resolveFunction p id l c =
        .error (.other "NameError" ("Function \x27" ++ id ++ "\x27 is not defined") [l, c]) ∧
      visit p (.call id args keywords starargs kwargs l c) =
        .error (.other "NameError" ("Function \x27" ++ id ++ "\x27 is not defined") [l, c])) := by
  refine ⟨?_, ?_, ?_, ?_, ?_, ?_⟩
  · intro v h
    simp only [visit]
    rw [h]
  · intro h1 v h2
    simp only [visit]
    rw [h1]
    dsimp only
    rw [h2]
  · intro h1 h2
    simp only [visit]
    rw [h1]
    dsimp only
    rw [h2]
  · intro f h
    simp only [resolveFunction]
    rw [h]
  · intro h1 f h2
    simp only [resolveFunction]
    rw [h1]
    dsimp only
    rw [h2]
  · intro h1 h2
    have hres : resolveFunction p id l c =
        .error (.other "NameError" ("Function \x27" ++ id ++ "\x27 is not defined") [l, c]) := by
      simp only [resolveFunction]
      rw [h1]
      dsimp only
      rw [h2]
    refine ⟨hres, ?_⟩
    simp only [visit]
    rw [hres]

/-- C7 (witness): a caller variable, a builtin constant, an undefined
name, a caller function, a builtin function, and an undefined function. -/
theorem claim_C7_witness :
    visit envParser (Expr.name "x" 1 0) = .ok (Value.int 42) ∧
    visit envParser (Expr.name "True" 1 0) = .ok (Value.bool true) ∧
    visit envParser (Expr.name "test" 1 0) =
      .error (.other "NameError" "Name \x27test\x27 is not defined" [1, 0]) ∧
    resolveFunction envParser "square" 1 0 = .ok squareFn ∧
    resolveFunction envParser "int" 1 0 = .ok builtin_int ∧
    visit envParser (Expr.call "x1" [] [] Option.none Option.none 1 0) =
      .error (.other "NameError" "Function \x27x1\x27 is not defined" [1, 0]) :=
  ⟨(claim_C7 envParser "x" 1 0 [] [] Option.none Option.none).1 (Value.int 42) rfl,
   (claim_C7 envParser "True" 1 0 [] [] Option.none Option.none).2.1 rfl (Value.bool true) rfl,
   (claim_C7 envParser "test" 1 0 [] [] Option.none Option.none).2.2.1 rfl rfl,
   (claim_C7 envParser "square" 1 0 [] [] Option.none Option.none).2.2.2.1 squareFn rfl,
   (claim_C7 envParser "int" 1 0 [] [] Option.none Option.none).2.2.2.2.1 rfl builtin_int rfl,
   ((claim_C7 envParser "x1" 1 0 [] [] Option.none Option.none).2.2.2.2.2 rfl rfl).2⟩

/-- C8 (confirmed): the constructor fails, with a NameError naming every
offending key and using the singular or plural word according to their
number, exactly when a caller variable name collides with a builtin
constant; otherwise it succeeds with no validation of the functions
mapping. -/
theorem claim_C8 (vs : List (String × Value)) (fs : List (String × PyFunc)) :
    (∀ k, k ∈ forbiddenKeys vs ↔
      (k ∈ variable_names.map Prod.fst ∧ k ∈ vs.map Prod.fst)) ∧
    (forbiddenKeys vs = [] → initExpressionParser (some vs) (some fs) = .ok ⟨vs, fs⟩) ∧
    (forbiddenKeys vs ≠ [] →
      initExpressionParser (some vs) (some fs) =
        .error (.other "NameError"
          ("Cannot override " ++
            (if (forbiddenKeys vs).length == 1 then "keyword" else "keywords")
            ++ " " ++ String.intercalate ", " (forbiddenKeys vs)) [])) := by
  refine ⟨?_, ?_, ?_⟩
  · intro k
    simp [forbiddenKeys, List.mem_filter]
  · intro h
    simp [initExpressionParser, h]
  · intro h
    obtain ⟨f0, rest, hfr⟩ : ∃ f0 rest, forbiddenKeys vs = f0 :: rest := by
      cases hh : forbiddenKeys vs with
      | nil => exact absurd hh h
      | cons a b => exact ⟨a, b, rfl⟩
    simp [initExpressionParser, hfr]

/-- C8 (witness): `variables={'True': 42}` fails with "Cannot override
keyword True"; a non-colliding variables mapping succeeds with arbitrary
functions unchecked. -/
theorem claim_C8_witness :
    initExpressionParser (some [("True", Value.int 42)]) (some []) =
      .error (.other "NameError" "Cannot override keyword True" []) ∧
    initExpressionParser (some [("data", Value.str "d")]) (some [("x2", x2Fn)]) =
      .ok ⟨[("data", Value.str "d")], [("x2", x2Fn)]⟩ := by
  constructor
  · exact ((claim_C8 [("True", Value.int 42)] []).2.2 (by decide)).trans rfl
  · exact (claim_C8 [("data", Value.str "d")] [("x2", x2Fn)]).2.1 rfl

/-- C9 (confirmed): `/` is true division and always produces a float even
on two integers; `//` is floor division (toward negative infinity), an
integer on two integers and a float when either operand is a float. -/
theorem claim_C9 (a b : Int) (x y : ℚ) :
    (b ≠ 0 → binary_ops .div (.int a) (.int b) =
      .ok (.float (((a : Int) : ℚ) / ((b : Int) : ℚ)))) ∧
    (y ≠ 0 → binary_ops .div (.float x) (.float y) = .ok (.float (x / y))) ∧
    (b ≠ 0 → binary_ops .floorDiv (.int a) (.int b) =
      .ok (.int ⌊((a : Int) : ℚ) / ((b : Int) : ℚ)⌋)) ∧
    (y ≠ 0 → binary_ops .floorDiv (.float x) (.float y) =
      .ok (.float ((⌊x / y⌋ : Int) : ℚ))) ∧
    (b ≠ 0 → binary_ops .floorDiv (.float x) (.int b) =
      .ok (.float ((⌊x / ((b : Int) : ℚ)⌋ : Int) : ℚ))) := by
  refine ⟨?_, ?_, ?_, ?_, ?_⟩
  · intro hb
    have hbq : (((b : Int) : ℚ)) ≠ 0 := Int.cast_ne_zero.mpr hb
    simp [binary_ops, ratValue?, hbq]
  · intro hy
    simp [binary_ops, ratValue?, intValue?, hy]
  · intro hb
    rw [← fdiv_eq_floor a b hb]
    simp [binary_ops, intValue?, hb]
  · intro hy
    simp [binary_ops, intValue?, ratValue?, hy]
  · intro hb
    have hbq : (((b : Int) : ℚ)) ≠ 0 := Int.cast_ne_zero.mpr hb
    simp [binary_ops, intValue?, ratValue?, hbq]

/-- C9 (witness): `1/2` and `4/2` are floats even though the operands are
integers and the second quotient is exact; `7//2` is the integer floor. -/
theorem claim_C9_witness :
    binary_ops .div (.int 1) (.int 2) = .ok (.float (((1 : Int) : ℚ) / ((2 : Int) : ℚ))) ∧
    binary_ops .div (.int 4) (.int 2) = .ok (.float (((4 : Int) : ℚ) / ((2 : Int) : ℚ))) ∧
    binary_ops .floorDiv (.int 7) (.int 2) =
      .ok (.int ⌊((7 : Int) : ℚ) / ((2 : Int) : ℚ)⌋) :=
  ⟨(claim_C9 1 2 1 1).1 (by decide),
   (claim_C9 4 2 1 1).1 (by decide),
   (claim_C9 7 2 1 1).2.2.1 (by decide)⟩

/-- C10 (confirmed): every failure surfaced by `parse` is a SyntaxError
record; in particular an evaluation-time NameError with a position is
normalized to a SyntaxError with the "NameError: " prefix and that
position, and a successful evaluation passes through unchanged — a raw
NameError escapes only the constructor, which `parse` never calls. -/
theorem claim_C10 (p : ExpressionParser) (m : Module) (src fn msg : String) (l c : Nat) :
    (∀ v, visit_Module p m = .ok v → parse p m src fn = .ok v) ∧
    (visit_Module p m = .error (.other "NameError" msg [l, c]) →
      parse p m src fn = .error ⟨"NameError: " ++ msg, fn, l, c, src⟩) := by
  constructor
  · intro v h
    simp only [parse]
    rw [h]
  · intro h
    simp [parse, h]

/-- C10 (witness): the undefined name `'test'` surfaces as a SyntaxError
with the "NameError: " prefix at the name's position, and `'1+2'` passes
through as the value 3. -/
theorem claim_C10_witness :
    parse emptyParser ⟨[Stmt.expr (Expr.name "test" 1 0) 1 0]⟩ "test" "<expression>" =
      .error ⟨"NameError: Name \x27test\x27 is not defined", "<expression>", 1, 0, "test"⟩ ∧
    parse emptyParser ⟨[Stmt.expr (Expr.binOp (Expr.num (Value.int 1) 1 0) .add
        (Expr.num (Value.int 2) 1 2) 1 0) 1 0]⟩ "1+2" "<expression>" = .ok (Value.int 3) :=
  ⟨(claim_C10 emptyParser ⟨[Stmt.expr (Expr.name "test" 1 0) 1 0]⟩ "test" "<expression>"
      "Name \x27test\x27 is not defined" 1 0).2 rfl,
   (claim_C10 emptyParser ⟨[Stmt.expr (Expr.binOp (Expr.num (Value.int 1) 1 0) .add
      (Expr.num (Value.int 2) 1 2) 1 0) 1 0]⟩ "1+2" "<expression>" "" 1 0).1
      (Value.int 3) rfl⟩

end Expression
